import Mathlib

/-!
Shallow embedding of `src/perception/video_recorder.py`: a webcam video
recorder made of a controller (`VideoRecorder`) and a capture worker
(`_Camera`, embedded as `CamWorker`) communicating through a FIFO command
queue.  External collaborators (cv2 camera device, `cv2.VideoWriter`,
`multiprocessing`) are modelled as explicit data/oracles:

* the command queue is a `List Cmd` (front of the list is the front of the
  queue);
* the cv2 `VideoWriter` is an `Encoder` record whose open/closed bit is
  decided by an environment oracle at creation time;
* camera frame reads are an `Option Nat` supplied by the environment for
  each loop iteration;
* a spawned worker process is recorded as the `CamWorker` value built by
  `_Camera.__init__`, and process termination as a counter bump;
* Python methods that may raise return `state × Option error`, with the
  state threaded exactly in the source's statement order, so that the state
  returned alongside `some error` is the object's state at the moment of
  the raise.
-/

/-- Commands placed on the command queue by the controller:
`('start', output_file)` and `('stop',)` in the source. -/
inductive Cmd where
  | start (filename : String)
  | stop
deriving DecidableEq, Repr

/-- Errors raised by `VideoRecorder` methods.  The source raises bare
`Exception`s with distinct messages; each message is one constructor here.
The spec's taxonomy calls the first four `InvalidStateError` and the last
one `DeviceOpenError`. -/
inductive RecErr where
  /-- "Must start the video recorder first by calling .start()!" -/
  | mustStartFirst
  /-- "Cannot record a video while one is already recording!" -/
  | alreadyRecording
  /-- "Cannot stop a video recording when it is not recording!" -/
  | notRecording
  /-- "Cannot stop a video recorder before starting it!" -/
  | stopBeforeStart
  /-- "Unable to open video device" -/
  | deviceOpenError (device_id : Nat)
deriving DecidableEq, Repr

/-- Which of the controller errors the spec classifies as `InvalidStateError`
(lifecycle-precondition violations, as opposed to device-open failure). -/
def RecErr.isInvalidState : RecErr → Bool
  | .mustStartFirst => true
  | .alreadyRecording => true
  | .notRecording => true
  | .stopBeforeStart => true
  | .deviceOpenError _ => false

/-- Errors raised inside the worker loop (`_Camera.run`). -/
inductive WorkerErr where
  /-- "Unable to open video writer for file .., codec .., at fps .., res .."
  — the spec's `EncoderOpenError`, carrying the values interpolated into the
  source's message. -/
  | encoderOpenError (filename : String) (codec : String) (fps : Nat)
      (res : Nat × Nat)
  /-- Python `AttributeError` from calling a method on `self.out` while it
  is still `None`. -/
  | noneTypeError
deriving DecidableEq, Repr

/-- The cv2 `VideoWriter` handle: creation parameters, an open/closed bit
(`isOpened()` / after `release()`), and the frames written so far.  Frames
are opaque and modelled as `Nat`. -/
structure Encoder where
  filename : String
  fourcc : String
  fps : Nat
  res : Nat × Nat
  isOpened : Bool
  frames : List Nat
deriving DecidableEq, Repr

/-- `VideoWriter.release()`: closes the stream; the Python attribute keeps
referring to the (now closed) writer object. -/
def Encoder.release (e : Encoder) : Encoder :=
  { e with isOpened := false }

/-- `VideoWriter.write(frame)`: writing on a closed writer is a silent
no-op in cv2. -/
def Encoder.write (e : Encoder) (f : Nat) : Encoder :=
  if e.isOpened then { e with frames := e.frames ++ [f] } else e

/-- `cv2.cv.CV_FOURCC(*codec)`: external codec-tag packing, abstracted as
the codec identifier itself (its value is only passed through to the
equally external `VideoWriter`). -/
def fourccOf (codec : String) : String := codec

/-- State of the `_Camera` worker process: immutable configuration captured
at construction, the borrowed camera handle (summarised by whether it had
been released when borrowed), the shared command queue, the `recording`
flag and the `out` writer attribute. -/
structure CamWorker where
  res : Nat × Nat
  fps : Nat
  codec : String
  fourcc : String
  cameraReleased : Bool
  cmd_q : List Cmd
  recording : Bool
  out : Option Encoder
deriving DecidableEq, Repr

/-- Environment for one worker loop iteration: whether a `VideoWriter`
opened for given (filename, fourcc, fps, res) reports `isOpened()`, and the
result of `camera.read()` this iteration (`none` = `ret_val` false). -/
structure WorkerEnv where
  writerOpens : String → String → Nat → Nat × Nat → Bool
  read : Option Nat

/-- `cv2.VideoWriter(filename, fourcc, fps, res)`: a fresh writer whose
`isOpened()` status is decided by the environment. -/
def mkWriter (env : WorkerEnv) (filename fourcc : String) (fps : Nat)
    (res : Nat × Nat) : Encoder :=
  { filename := filename, fourcc := fourcc, fps := fps, res := res
    isOpened := env.writerOpens filename fourcc fps res, frames := [] }

/-- First phase of the loop body in `_Camera.run`: if the queue is
non-empty, dequeue exactly one command and apply it
(`stop`: `self.out.release()` then `recording = False`; `start`: build a
writer, raise if it is not opened, else `recording = True`). -/
def CamWorker.stepCmd (env : WorkerEnv) (w : CamWorker) :
    Except WorkerErr CamWorker :=
  match w.cmd_q with
  | [] => Except.ok w
  | cmd :: rest =>
    match cmd with
    | Cmd.stop =>
      match w.out with
      | none => Except.error WorkerErr.noneTypeError
      | some e =>
        Except.ok { w with cmd_q := rest, out := some e.release,
                           recording := false }
    | Cmd.start filename =>
      let e := mkWriter env filename w.fourcc w.fps w.res
      if e.isOpened then
        Except.ok { w with cmd_q := rest, out := some e,
                           recording := true }
      else
        Except.error (WorkerErr.encoderOpenError filename w.codec w.fps
          w.res)

/-- Second phase of the loop body in `_Camera.run`: if `recording`, read
one frame from the camera and write it to the encoder on success; on read
failure skip silently. -/
def CamWorker.stepRead (env : WorkerEnv) (w : CamWorker) :
    Except WorkerErr CamWorker :=
  if w.recording then
    match env.read with
    | none => Except.ok w
    | some f =>
      match w.out with
      | none => Except.error WorkerErr.noneTypeError
      | some e => Except.ok { w with out := some (e.write f) }
  else
    Except.ok w

/-- One full iteration of the `while True` loop in `_Camera.run`: command
phase, then frame phase.  An uncaught raise kills the process, so the step
returns `Except`. -/
def CamWorker.step (env : WorkerEnv) (w : CamWorker) :
    Except WorkerErr CamWorker :=
  (w.stepCmd env).bind (fun w1 => w1.stepRead env)

/-- Whether the worker's `out` attribute holds a writer that is currently
open. -/
def CamWorker.outOpen (w : CamWorker) : Bool :=
  match w.out with
  | none => false
  | some e => e.isOpened

/-- Invariant as the code maintains it: `recording` is true exactly when
`out` holds an OPEN writer. -/
def CamWorker.invOpen (w : CamWorker) : Prop :=
  w.recording = w.outOpen

instance (w : CamWorker) : Decidable w.invOpen := by
  unfold CamWorker.invOpen; infer_instance

/-- Modelled from the spec's words (for comparison with the code): "the
encoder handle is present iff `recording` is true" — presence of the `out`
handle, open or not. -/
def CamWorker.specHandlePresent (w : CamWorker) : Prop :=
  w.recording = w.out.isSome

instance (w : CamWorker) : Decidable w.specHandlePresent := by
  unfold CamWorker.specHandlePresent; infer_instance

/-- State of the `VideoRecorder` controller.  `workers` records, in spawn
order, the `_Camera` value created by each `start()` call;
`deviceOpenCount` counts `cv2.VideoCapture` constructions (only
`__init__` performs one); `terminatedCount` counts `terminate()` calls. -/
structure VideoRecorder where
  res : Nat × Nat
  codec : String
  fps : Nat
  cmd_q : List Cmd
  cameraReleased : Bool
  recording : Bool
  started : Bool
  workers : List CamWorker
  deviceOpenCount : Nat
  terminatedCount : Nat
deriving DecidableEq, Repr

/-- `_Camera.__init__`: captures the configuration, computes the fourcc,
borrows the controller's camera and queue, and initialises
`recording = False`, `out = None`. -/
def VideoRecorder.spawnWorker (s : VideoRecorder) : CamWorker :=
  { res := s.res, fps := s.fps, codec := s.codec
    fourcc := fourccOf s.codec
    cameraReleased := s.cameraReleased
    cmd_q := s.cmd_q, recording := false, out := none }

/-- `VideoRecorder.__init__(device_id, res, codec, fps)`: opens the camera
device (raising if the device cannot be opened, per the `deviceOpens`
oracle), creates the queue, and initialises `_recording` and `_started`
to false. -/
def VideoRecorder.init (deviceOpens : Bool) (device_id : Nat)
    (res : Nat × Nat) (codec : String) (fps : Nat) :
    Except RecErr VideoRecorder :=
  if deviceOpens then
    Except.ok { res := res, codec := codec, fps := fps, cmd_q := []
                cameraReleased := false, recording := false
                started := false, workers := [], deviceOpenCount := 1
                terminatedCount := 0 }
  else
    Except.error (RecErr.deviceOpenError device_id)

/-- `VideoRecorder.start()`: no precondition check in the source; sets
`_started = True`, constructs a `_Camera` on the current camera and queue,
and starts it. -/
def VideoRecorder.start (s : VideoRecorder) :
    VideoRecorder × Option RecErr :=
  ({ s with started := true, workers := s.workers ++ [s.spawnWorker] },
   none)

/-- `VideoRecorder.start_recording(output_file)`: raises if not started or
already recording; otherwise sets `_recording = True` and enqueues
`('start', output_file)`. -/
def VideoRecorder.start_recording (s : VideoRecorder)
    (output_file : String) : VideoRecorder × Option RecErr :=
  if s.started = false then
    (s, some RecErr.mustStartFirst)
  else if s.recording = true then
    (s, some RecErr.alreadyRecording)
  else
    ({ s with recording := true
              cmd_q := s.cmd_q ++ [Cmd.start output_file] }, none)

/-- `VideoRecorder.stop_recording()`: raises if not recording; otherwise
enqueues `('stop',)` and sets `_recording = False`. -/
def VideoRecorder.stop_recording (s : VideoRecorder) :
    VideoRecorder × Option RecErr :=
  if s.recording = false then
    (s, some RecErr.notRecording)
  else
    ({ s with cmd_q := s.cmd_q ++ [Cmd.stop], recording := false }, none)

/-- `VideoRecorder.stop()`: raises if not started; otherwise sets
`_started = False`, releases the camera device and terminates the worker
process. -/
def VideoRecorder.stop (s : VideoRecorder) :
    VideoRecorder × Option RecErr :=
  if s.started = false then
    (s, some RecErr.stopBeforeStart)
  else
    ({ s with started := false, cameraReleased := true
              terminatedCount := s.terminatedCount + 1 }, none)

/-- Whether a controller call raised one of the spec's
`InvalidStateError`s. -/
def failsInvalid (r : VideoRecorder × Option RecErr) : Bool :=
  match r.2 with
  | some e => e.isInvalidState
  | none => false

/-! ### Concrete states used by witnesses and counterexamples -/

/-- A freshly constructed recorder: `VideoRecorder(0)` with the default
configuration, the device having opened. -/
def rec0 : VideoRecorder :=
  { res := (640, 480), codec := "XVID", fps := 30, cmd_q := []
    cameraReleased := false, recording := false, started := false
    workers := [], deviceOpenCount := 1, terminatedCount := 0 }

/-- `rec0` after one `start()`. -/
def rec1 : VideoRecorder := (rec0.start).1

/-- `rec1` after a second `start()` with no intervening `stop()`. -/
def rec2 : VideoRecorder := (rec1.start).1

/-- `rec1` after `stop()`. -/
def recStopped : VideoRecorder := (rec1.stop).1

/-- Environment in which every writer opens and no frame is available. -/
def envOpen : WorkerEnv :=
  { writerOpens := fun _ _ _ _ => true, read := none }

/-- Environment in which no writer opens and no frame is available. -/
def envClosed : WorkerEnv :=
  { writerOpens := fun _ _ _ _ => false, read := none }

/-- A worker about to process `Start "a"` then `Stop`. -/
def camW0 : CamWorker :=
  { res := (640, 480), fps := 30, codec := "XVID", fourcc := "XVID"
    cameraReleased := false, cmd_q := [Cmd.start "a", Cmd.stop]
    recording := false, out := none }

/-- `camW0` after one loop iteration under `envOpen`: recording with an
open writer for "a", `Stop` still queued. -/
def camW1 : CamWorker :=
  { camW0 with cmd_q := [Cmd.stop]
               out := some (mkWriter envOpen "a" "XVID" 30 (640, 480))
               recording := true }

/-- `camW1` after processing the `Stop` command: not recording, but `out`
still holds the (now released) writer. -/
def camW2 : CamWorker :=
  { camW1 with cmd_q := []
               out := some (mkWriter envOpen "a" "XVID" 30 (640, 480)).release
               recording := false }

/-- A recording worker with an empty queue (used for the missed-frame
property). -/
def camWrec : CamWorker := { camW1 with cmd_q := [] }

/-! ### Helper lemmas on the worker step -/

/-- The command phase never touches fields other than `cmd_q`, `out`,
`recording`; in particular it dequeues the head of a non-empty queue. -/
theorem stepCmd_cons_cmd_q (env : WorkerEnv) (w w' : CamWorker)
    (c : Cmd) (rest : List Cmd) (hq : w.cmd_q = c :: rest)
    (h : w.stepCmd env = Except.ok w') : w'.cmd_q = rest := by
  unfold CamWorker.stepCmd at h
  rw [hq] at h
  cases c with
  | stop =>
    cases ho : w.out with
    | none => rw [ho] at h; exact absurd h (by simp)
    | some e =>
      rw [ho] at h
      simp only [Except.ok.injEq] at h
      subst h; rfl
  | start filename =>
    by_cases hop : (mkWriter env filename w.fourcc w.fps w.res).isOpened
    · simp only [hop, if_true, Except.ok.injEq] at h
      subst h; rfl
    · simp only [hop, if_false, reduceCtorEq] at h

/-- Writing a frame never changes whether the writer is open. -/
theorem Encoder.write_isOpened (e : Encoder) (f : Nat) :
    (e.write f).isOpened = e.isOpened := by
  unfold Encoder.write; split <;> rfl

/-- The frame phase leaves the queue unchanged. -/
theorem stepRead_cmd_q (env : WorkerEnv) (w w' : CamWorker)
    (h : w.stepRead env = Except.ok w') : w'.cmd_q = w.cmd_q := by
  unfold CamWorker.stepRead at h
  split at h
  · split at h
    · simp only [Except.ok.injEq] at h; subst h; rfl
    · split at h
      · exact absurd h (by simp)
      · simp only [Except.ok.injEq] at h; subst h; rfl
  · simp only [Except.ok.injEq] at h; subst h; rfl

/-- The command phase preserves `recording = outOpen`. -/
theorem stepCmd_invOpen (env : WorkerEnv) (w w' : CamWorker)
    (hinv : w.invOpen) (h : w.stepCmd env = Except.ok w') : w'.invOpen := by
  unfold CamWorker.stepCmd at h
  cases hq : w.cmd_q with
  | nil =>
    rw [hq] at h; simp only [Except.ok.injEq] at h; subst h; exact hinv
  | cons c rest =>
    rw [hq] at h
    cases c with
    | stop =>
      cases ho : w.out with
      | none => rw [ho] at h; exact absurd h (by simp)
      | some e =>
        rw [ho] at h
        simp only [Except.ok.injEq] at h
        subst h
        simp [CamWorker.invOpen, CamWorker.outOpen, Encoder.release]
    | start filename =>
      by_cases hop : (mkWriter env filename w.fourcc w.fps w.res).isOpened
      · simp only [hop, if_true, Except.ok.injEq] at h
        subst h
        simp [CamWorker.invOpen, CamWorker.outOpen, hop]
      · simp only [hop, if_false, reduceCtorEq] at h

/-- The frame phase preserves `recording = outOpen` (writing never closes
the writer). -/
theorem stepRead_invOpen (env : WorkerEnv) (w w' : CamWorker)
    (hinv : w.invOpen) (h : w.stepRead env = Except.ok w') : w'.invOpen := by
  unfold CamWorker.stepRead at h
  split at h
  · split at h
    · simp only [Except.ok.injEq] at h; subst h; exact hinv
    · rename_i f
      split at h
      · exact absurd h (by simp)
      · rename_i e ho
        simp only [Except.ok.injEq] at h
        subst h
        simp only [CamWorker.invOpen, CamWorker.outOpen] at hinv ⊢
        rw [ho] at hinv
        rw [Encoder.write_isOpened]
        exact hinv
  · simp only [Except.ok.injEq] at h; subst h; exact hinv

/-! ### Claims -/

/-- C1 (counterexample): with `rec1` already started, a second `start()`
does NOT fail — it returns no error and spawns a second worker. -/
theorem C1_counterexample :
    rec1.started = true ∧
    VideoRecorder.start rec1 = (rec2, none) ∧
    rec2.workers.length = 2 :=
  ⟨rfl, rfl, rfl⟩

/-- C1 (amended): `start()` performs no precondition check; called on an
already-started controller it succeeds (no `InvalidStateError`), leaves
`started` true and spawns a second worker. -/
theorem C1_start_again_spawns_second_worker (s : VideoRecorder)
    (h : s.started = true) :
    (s.start).2 = none ∧
    (s.start).1.started = true ∧
    (s.start).1.workers = s.workers ++ [s.spawnWorker] := by
  exact ⟨rfl, rfl, rfl⟩

/-- C1 witness: the amended statement at the concrete started state
`rec1`. -/
theorem C1_witness :
    rec1.started = true ∧
    ((rec1.start).2 = none ∧
     (rec1.start).1.started = true ∧
     (rec1.start).1.workers = rec1.workers ++ [rec1.spawnWorker]) :=
  ⟨rfl, C1_start_again_spawns_second_worker rec1 rfl⟩

/-- C2 (counterexample): the "handle present iff recording" form of the
invariant is not preserved by a `Stop` command: from `camW1` (which
satisfies it) one loop iteration processing `Stop` reaches `camW2`, where
`recording` is false but `out` still holds the released writer. -/
theorem C2_counterexample :
    camW1.specHandlePresent ∧
    CamWorker.step envOpen camW1 = Except.ok camW2 ∧
    camW2.recording = false ∧
    camW2.out.isSome = true ∧
    ¬ camW2.specHandlePresent := by
  refine ⟨rfl, rfl, rfl, rfl, ?_⟩
  intro h
  exact absurd h (by decide)

/-- C2 (amended): the worker's `recording` flag is true exactly when `out`
holds an OPEN encoder; this invariant holds at worker construction and is
preserved by every successfully completed loop iteration (processing a
`Start`, a `Stop`, or a frame read).  After a `Stop` the released handle
remains in `out`, so mere presence of a handle does not track
`recording`. -/
theorem C2_recording_iff_open_encoder :
    (∀ s : VideoRecorder, s.spawnWorker.invOpen) ∧
    (∀ (env : WorkerEnv) (w w' : CamWorker),
      w.invOpen → w.step env = Except.ok w' → w'.invOpen) := by
  constructor
  · intro s
    simp [VideoRecorder.spawnWorker, CamWorker.invOpen, CamWorker.outOpen]
  · intro env w w' hinv h
    unfold CamWorker.step at h
    cases hc : w.stepCmd env with
    | error e => rw [hc] at h; exact absurd h (by simp [Except.bind])
    | ok w1 =>
      rw [hc] at h
      simp only [Except.bind] at h
      exact stepRead_invOpen env w1 w' (stepCmd_invOpen env w w1 hinv hc) h

/-- C2 witness: the preserved invariant applied across the concrete `Stop`
iteration from `camW1` to `camW2`. -/
theorem C2_witness : camW2.invOpen :=
  C2_recording_iff_open_encoder.2 envOpen camW1 camW2 (by decide) rfl

/-- C3: on a started, not-yet-recording controller with an empty queue,
`start_recording "out.avi"` then `stop_recording()` both succeed and leave
the queue as exactly `[Start "out.avi", Stop]`; the worker dequeues exactly
one command per successful loop iteration whenever the queue is non-empty;
and a worker holding that queue observes the `Start` (opening a writer for
"out.avi") on its first iteration and the `Stop` on its second — FIFO, no
reordering or coalescing. -/
theorem C3_fifo_one_start_then_one_stop :
    (∀ s : VideoRecorder,
      s.started = true → s.recording = false → s.cmd_q = [] →
      (s.start_recording "out.avi").2 = none ∧
      (((s.start_recording "out.avi").1).stop_recording).2 = none ∧
      (((s.start_recording "out.avi").1).stop_recording).1.cmd_q
        = [Cmd.start "out.avi", Cmd.stop]) ∧
    (∀ (env : WorkerEnv) (w w' : CamWorker) (c : Cmd) (rest : List Cmd),
      w.cmd_q = c :: rest → w.step env = Except.ok w' →
      w'.cmd_q = rest) ∧
    (∀ (env : WorkerEnv) (w : CamWorker),
      w.cmd_q = [Cmd.start "out.avi", Cmd.stop] →
      env.writerOpens "out.avi" w.fourcc w.fps w.res = true →
      env.read = none →
      ∃ w1 w2, w.step env = Except.ok w1 ∧
        w1.recording = true ∧ w1.cmd_q = [Cmd.stop] ∧
        (∃ e, w1.out = some e ∧ e.filename = "out.avi" ∧
          e.isOpened = true) ∧
        w1.step env = Except.ok w2 ∧
        w2.recording = false ∧ w2.cmd_q = []) := by
  refine ⟨?_, ?_, ?_⟩
  · intro s hs hr hq
    simp [VideoRecorder.start_recording, VideoRecorder.stop_recording,
      hs, hr, hq]
  · intro env w w' c rest hq h
    unfold CamWorker.step at h
    cases hc : w.stepCmd env with
    | error e => rw [hc] at h; exact absurd h (by simp [Except.bind])
    | ok w1 =>
      rw [hc] at h
      simp only [Except.bind] at h
      rw [stepRead_cmd_q env w1 w' h]
      exact stepCmd_cons_cmd_q env w w1 c rest hq hc
  · intro env w hq hop hrd
    refine ⟨{ w with cmd_q := [Cmd.stop]
                     out := some (mkWriter env "out.avi" w.fourcc w.fps
                       w.res)
                     recording := true }, ?_⟩
    have hstep1 : w.step env = Except.ok
        { w with cmd_q := [Cmd.stop]
                 out := some (mkWriter env "out.avi" w.fourcc w.fps w.res)
                 recording := true } := by
      unfold CamWorker.step CamWorker.stepCmd CamWorker.stepRead
      rw [hq]
      simp only [mkWriter, hop, if_true, Except.bind, hrd]
    refine ⟨{ w with cmd_q := []
                     out := some (mkWriter env "out.avi" w.fourcc w.fps
                       w.res).release
                     recording := false }, hstep1, rfl, rfl,
      ⟨mkWriter env "out.avi" w.fourcc w.fps w.res, rfl, rfl, hop⟩,
      ?_, rfl, rfl⟩
    unfold CamWorker.step CamWorker.stepCmd CamWorker.stepRead
    simp only [Except.bind]
    rfl

/-- C3 witness: the three conjuncts at the concrete inputs `rec1`,
`envOpen`, and the worker states `camW0`/`camW1`. -/
theorem C3_witness :
    ((rec1.start_recording "out.avi").2 = none ∧
     (((rec1.start_recording "out.avi").1).stop_recording).1.cmd_q
       = [Cmd.start "out.avi", Cmd.stop]) ∧
    camW2.cmd_q = [] ∧
    (∃ w1 w2,
      CamWorker.step envOpen
        { camW0 with cmd_q := [Cmd.start "out.avi", Cmd.stop] }
        = Except.ok w1 ∧
      w1.recording = true ∧ w1.cmd_q = [Cmd.stop] ∧
      (∃ e, w1.out = some e ∧ e.filename = "out.avi" ∧
        e.isOpened = true) ∧
      w1.step envOpen = Except.ok w2 ∧
      w2.recording = false ∧ w2.cmd_q = []) :=
  ⟨⟨(C3_fifo_one_start_then_one_stop.1 rec1 rfl rfl rfl).1,
    (C3_fifo_one_start_then_one_stop.1 rec1 rfl rfl rfl).2.2⟩,
   C3_fifo_one_start_then_one_stop.2.1 envOpen camW1 camW2 Cmd.stop []
     rfl rfl,
   C3_fifo_one_start_then_one_stop.2.2 envOpen
     { camW0 with cmd_q := [Cmd.start "out.avi", Cmd.stop] } rfl rfl rfl⟩

/-- C4: `start_recording(output_file)` raises an `InvalidStateError`
exactly when the controller is not started or is already recording; when
neither holds it sets `_recording = True` and enqueues
`Start(output_file)` at the back of the queue, returning immediately. -/
theorem C4_start_recording_spec (s : VideoRecorder) (f : String) :
    (failsInvalid (s.start_recording f) = true ↔
      (s.started = false ∨ s.recording = true)) ∧
    (s.started = true → s.recording = false →
      s.start_recording f =
        ({ s with recording := true
                  cmd_q := s.cmd_q ++ [Cmd.start f] }, none)) := by
  constructor
  · cases hs : s.started <;> cases hr : s.recording <;>
      simp [VideoRecorder.start_recording, failsInvalid,
        RecErr.isInvalidState, hs, hr]
  · intro h1 h2
    simp [VideoRecorder.start_recording, h1, h2]

/-- C4 witness: at `rec0` (not started) the call fails with an
`InvalidStateError`; at `rec1` (started, not recording) it succeeds and
enqueues the `Start` command. -/
theorem C4_witness :
    (failsInvalid (rec0.start_recording "out.avi") = true ↔
      (rec0.started = false ∨ rec0.recording = true)) ∧
    rec1.start_recording "out.avi" =
      ({ rec1 with recording := true
                   cmd_q := rec1.cmd_q ++ [Cmd.start "out.avi"] }, none) :=
  ⟨(C4_start_recording_spec rec0 "out.avi").1,
   (C4_start_recording_spec rec1 "out.avi").2 rfl rfl⟩

/-- C5: `stop_recording()` raises an `InvalidStateError` exactly when the
controller's `_recording` flag is false; otherwise it enqueues `Stop` at
the back of the queue and sets `_recording = False`. -/
theorem C5_stop_recording_spec (s : VideoRecorder) :
    (failsInvalid s.stop_recording = true ↔ s.recording = false) ∧
    (s.recording = true →
      s.stop_recording =
        ({ s with cmd_q := s.cmd_q ++ [Cmd.stop]
                  recording := false }, none)) := by
  constructor
  · cases hr : s.recording <;>
      simp [VideoRecorder.stop_recording, failsInvalid,
        RecErr.isInvalidState, hr]
  · intro h
    simp [VideoRecorder.stop_recording, h]

/-- C5 witness: at `rec0` (not recording) the call fails with an
`InvalidStateError`; at `recRec` (recording) it succeeds and enqueues
`Stop`. -/
theorem C5_witness :
    (failsInvalid rec0.stop_recording = true ↔ rec0.recording = false) ∧
    ((rec1.start_recording "out.avi").1).stop_recording =
      ({ (rec1.start_recording "out.avi").1 with
          cmd_q := ((rec1.start_recording "out.avi").1).cmd_q ++
            [Cmd.stop]
          recording := false }, none) :=
  ⟨(C5_stop_recording_spec rec0).1,
   (C5_stop_recording_spec ((rec1.start_recording "out.avi").1)).2 rfl⟩

/-- C6: on any freshly constructed controller (any result of `__init__`),
`stop()` before `start()` raises an `InvalidStateError` (leaving the state
untouched); on any started controller `stop()` succeeds, sets
`_started = False`, releases the camera device and terminates the worker
process. -/
theorem C6_stop_spec :
    (∀ (dOpens : Bool) (did : Nat) (r : Nat × Nat) (c : String) (fr : Nat)
       (s : VideoRecorder),
      VideoRecorder.init dOpens did r c fr = Except.ok s →
      s.stop = (s, some RecErr.stopBeforeStart) ∧
      RecErr.stopBeforeStart.isInvalidState = true) ∧
    (∀ s : VideoRecorder, s.started = true →
      s.stop = ({ s with started := false, cameraReleased := true
                         terminatedCount := s.terminatedCount + 1 },
                none)) := by
  constructor
  · intro dOpens did r c fr s h
    cases dOpens with
    | false => exact absurd h (by simp [VideoRecorder.init])
    | true =>
      simp only [VideoRecorder.init, if_true, Except.ok.injEq] at h
      subst h
      exact ⟨rfl, rfl⟩
  · intro s h
    simp [VideoRecorder.stop, h]

/-- C6 witness: `rec0` arises from `__init__` and its `stop()` fails; the
started `rec1` stops successfully, releasing the camera and terminating
the worker. -/
theorem C6_witness :
    (rec0.stop = (rec0, some RecErr.stopBeforeStart) ∧
     RecErr.stopBeforeStart.isInvalidState = true) ∧
    rec1.stop = ({ rec1 with started := false, cameraReleased := true
                             terminatedCount := rec1.terminatedCount + 1 },
                 none) :=
  ⟨C6_stop_spec.1 true 0 (640, 480) "XVID" 30 rec0 rfl,
   C6_stop_spec.2 rec1 rfl⟩

/-- C7: when the worker's next command is `Start(filename)` and the writer
for `filename` does not open, the iteration raises the
`EncoderOpenError` carrying that filename and the worker's codec, fps and
resolution; when the writer opens, the iteration succeeds with
`recording = true`. -/
theorem C7_encoder_open_error (env : WorkerEnv) (w : CamWorker)
    (filename : String) (rest : List Cmd)
    (hq : w.cmd_q = Cmd.start filename :: rest) :
    (env.writerOpens filename w.fourcc w.fps w.res = false →
      w.step env = Except.error
        (WorkerErr.encoderOpenError filename w.codec w.fps w.res)) ∧
    (env.writerOpens filename w.fourcc w.fps w.res = true →
      ∃ w', w.step env = Except.ok w' ∧ w'.recording = true) := by
  constructor
  · intro hop
    unfold CamWorker.step CamWorker.stepCmd
    rw [hq]
    simp only [mkWriter, hop, Bool.false_eq_true, if_false, Except.bind]
  · intro hop
    have hcmd : w.stepCmd env = Except.ok
        { w with cmd_q := rest
                 out := some (mkWriter env filename w.fourcc w.fps w.res)
                 recording := true } := by
      unfold CamWorker.stepCmd
      rw [hq]
      simp only [mkWriter, hop, if_true]
    cases hrd : env.read with
    | none =>
      refine ⟨{ w with cmd_q := rest
                       out := some (mkWriter env filename w.fourcc w.fps
                         w.res)
                       recording := true }, ?_, rfl⟩
      unfold CamWorker.step
      rw [hcmd]
      simp only [Except.bind]
      unfold CamWorker.stepRead
      simp only [hrd, if_true]
    | some f =>
      refine ⟨{ w with cmd_q := rest
                       out := some ((mkWriter env filename w.fourcc w.fps
                         w.res).write f)
                       recording := true }, ?_, rfl⟩
      unfold CamWorker.step
      rw [hcmd]
      simp only [Except.bind]
      unfold CamWorker.stepRead
      simp only [hrd, if_true]

/-- C7 witness: `camW0` (next command `Start "a"`) raises the
`EncoderOpenError` carrying ("a", "XVID", 30, (640, 480)) under
`envClosed`, and records successfully under `envOpen`. -/
theorem C7_witness :
    camW0.step envClosed = Except.error
      (WorkerErr.encoderOpenError "a" "XVID" 30 (640, 480)) ∧
    (∃ w', camW0.step envOpen = Except.ok w' ∧ w'.recording = true) :=
  ⟨(C7_encoder_open_error envClosed camW0 "a" [Cmd.stop] rfl).1 rfl,
   (C7_encoder_open_error envOpen camW0 "a" [Cmd.stop] rfl).2 rfl⟩

/-- C8: in a loop iteration where the worker is recording, no command is
pending and the camera read yields no frame, the iteration completes
without raising and leaves the state — in particular the encoder contents
and the `recording` flag — exactly unchanged (skip-and-continue). -/
theorem C8_missed_frame_skip (env : WorkerEnv) (w : CamWorker)
    (hr : w.recording = true) (hq : w.cmd_q = [])
    (hread : env.read = none) :
    w.step env = Except.ok w := by
  unfold CamWorker.step CamWorker.stepCmd
  rw [hq]
  simp only [Except.bind]
  unfold CamWorker.stepRead
  simp only [hr, hread, if_true]

/-- C8 witness: the recording worker `camWrec` is unchanged by an
iteration of `envOpen` (no pending command, no frame available). -/
theorem C8_witness : camWrec.step envOpen = Except.ok camWrec :=
  C8_missed_frame_skip envOpen camWrec rfl rfl rfl

/-- C9: `start_recording`, `stop_recording` and `stop` are all-or-nothing:
whenever one of them raises, the controller state (including `started`,
`recording` and the queue) is returned exactly as it was before the
call. -/
theorem C9_all_or_nothing (s : VideoRecorder) (f : String) :
    ((s.start_recording f).2.isSome = true → (s.start_recording f).1 = s) ∧
    ((s.stop_recording).2.isSome = true → (s.stop_recording).1 = s) ∧
    ((s.stop).2.isSome = true → (s.stop).1 = s) := by
  refine ⟨?_, ?_, ?_⟩
  · cases hs : s.started <;> cases hr : s.recording <;>
      simp [VideoRecorder.start_recording, hs, hr]
  · cases hr : s.recording <;> simp [VideoRecorder.stop_recording, hr]
  · cases hs : s.started <;> simp [VideoRecorder.stop, hs]

/-- C9 witness: at `rec0` all three calls raise, and each returns the
state unchanged. -/
theorem C9_witness :
    (rec0.start_recording "x").1 = rec0 ∧
    (rec0.stop_recording).1 = rec0 ∧
    (rec0.stop).1 = rec0 :=
  ⟨(C9_all_or_nothing rec0 "x").1 rfl,
   (C9_all_or_nothing rec0 "x").2.1 rfl,
   (C9_all_or_nothing rec0 "x").2.2 rfl⟩

/-- C10: `start()` never raises in any controller state; after a
successful `stop()` (which released the camera), a further `start()`
succeeds, sets `started` back to true and spawns a fresh worker whose
borrowed camera handle is the already-released one — the controller's
camera stays released and the device-open count does not change (the
device is never reopened). -/
theorem C10_restart_borrows_released_camera :
    (∀ s : VideoRecorder, (s.start).2 = none) ∧
    (∀ s s' : VideoRecorder, s.started = true → s.stop = (s', none) →
      (s'.start).2 = none ∧
      (s'.start).1.started = true ∧
      (s'.start).1.workers = s'.workers ++ [s'.spawnWorker] ∧
      s'.spawnWorker.cameraReleased = true ∧
      (s'.start).1.cameraReleased = true ∧
      (s'.start).1.deviceOpenCount = s'.deviceOpenCount) := by
  constructor
  · intro s; rfl
  · intro s s' hs h
    simp only [VideoRecorder.stop, hs, Bool.true_eq_false, if_false,
      Prod.mk.injEq] at h
    have hrel : s'.cameraReleased = true := by
      rw [← h.1]
    refine ⟨rfl, rfl, rfl, ?_, ?_, rfl⟩
    · simp [VideoRecorder.spawnWorker, hrel]
    · simpa [VideoRecorder.start] using hrel

/-- C10 witness: `rec1.stop` yields `recStopped`; restarting it succeeds,
marks it started, spawns a worker borrowing the released camera and does
not reopen the device. -/
theorem C10_witness :
    (rec0.start).2 = none ∧
    ((recStopped.start).2 = none ∧
     (recStopped.start).1.started = true ∧
     (recStopped.start).1.workers
       = recStopped.workers ++ [recStopped.spawnWorker] ∧
     recStopped.spawnWorker.cameraReleased = true ∧
     (recStopped.start).1.cameraReleased = true ∧
     (recStopped.start).1.deviceOpenCount = recStopped.deviceOpenCount) :=
  ⟨C10_restart_borrows_released_camera.1 rec0,
   C10_restart_borrows_released_camera.2 rec1 recStopped rfl rfl⟩
